import Mathlib

/-!
Shallow embedding of `static/js/index.js`: a page-behavior initializer that,
on document-ready, attaches a bulmaCarousel widget with fixed options to every
element with class `carousel`, registers two lifecycle callbacks per carousel
instance (pause all videos before a slide transition; play the active slide's
video after the transition), and attaches a bulmaSlider widget.

DOM model: video elements are identified by natural-number ids; the playback
state of the page maps each video id to `true` (playing) or `false` (paused).
A slide is a DOM subtree holding its video elements in document order together
with its `is-active` class flag; a carousel element's subtree is its list of
slides.
-/

/-- Playback state of the page: `true` means the video is playing,
`false` means it is paused. -/
abbrev PlaybackState := Nat → Bool

/-- A slide (`.slider-item` element): whether it carries the `is-active`
class, and the video elements in its subtree in document order. -/
structure Slide where
  isActive : Bool
  videos : List Nat
  deriving DecidableEq, Repr

/-- A DOM element eligible for widget attachment: its class list and the
slides in its subtree. -/
structure Elem where
  classes : List String
  slides : List Slide
  deriving DecidableEq, Repr

/-- Fixed carousel configuration record (the `options` object shape). -/
structure CarouselOptions where
  slidesToScroll : Nat
  slidesToShow : Nat
  loop : Bool
  infinite : Bool
  autoplay : Bool
  autoplaySpeed : Nat
  deriving DecidableEq, Repr

/-- The `options` object of `index.js` lines 7-14. -/
def options : CarouselOptions :=
  ⟨1, 1, true, true, false, 5000⟩

/-- The configuration as the spec states it: slidesToScroll 1, slidesToShow 1,
loop true, infinite true, autoplay false, autoplaySpeed 5000 ms. -/
def specCarouselOptions : CarouselOptions :=
  ⟨1, 1, true, true, false, 5000⟩

/-- A live carousel instance handle: the slides of the element it is attached
to, and the options it was attached with. -/
structure CarouselInstance where
  slides : List Slide
  opts : CarouselOptions
  deriving DecidableEq, Repr

/-- All video elements in the carousel element's DOM subtree, in document
order: `carousel.element.getElementsByTagName('video')`. -/
def CarouselInstance.videos (c : CarouselInstance) : List Nat :=
  (c.slides.map Slide.videos).flatten

/-- The first slide in the carousel's subtree carrying the `is-active` class:
`carousel.element.querySelector('.slider-item.is-active')`. -/
def CarouselInstance.activeSlide (c : CarouselInstance) : Option Slide :=
  c.slides.find? (fun s => s.isActive)

/-- `video.pause()`: sets that one video to paused. -/
def pauseVideo (v : Nat) (st : PlaybackState) : PlaybackState :=
  fun w => if w = v then false else st w

/-- `video.play()`: sets that one video to playing. -/
def playVideo (v : Nat) (st : PlaybackState) : PlaybackState :=
  fun w => if w = v then true else st w

/-- The `before:show` callback (`index.js` lines 21-26): pause every video in
the carousel element's subtree, in document order. -/
def beforeShow (c : CarouselInstance) (st : PlaybackState) : PlaybackState :=
  c.videos.foldl (fun s v => pauseVideo v s) st

/-- The `shown` callback (`index.js` lines 28-36): find the active slide; if
present, find its first video element; if present, play it. -/
def shown (c : CarouselInstance) (st : PlaybackState) : PlaybackState :=
  match c.activeSlide with
  | none => st
  | some slide =>
      match slide.videos.head? with
      | none => st
      | some v => playVideo v st

/-- A page as the initializer sees it: the candidate elements for carousel
attachment and the elements matched by the slider attachment. -/
structure Page where
  elems : List Elem
  sliderElems : List Nat
  deriving DecidableEq, Repr

/-- An element matches the `.carousel` selector when its class list contains
`carousel`. -/
def matchesCarousel (e : Elem) : Bool :=
  e.classes.contains "carousel"

/-- Modelled from the spec: `bulmaCarousel.attach(selector, options)` is
library code (not in the repository); per spec section 6 it is an "attach to
matching elements entry point returning instance handles" — it attaches a
carousel widget to every element matching the selector, with the given
options, and returns the collection of instances. -/
def bulmaCarouselAttach (page : Page) (opts : CarouselOptions) :
    List CarouselInstance :=
  (page.elems.filter matchesCarousel).map (fun e => ⟨e.slides, opts⟩)

/-- Modelled from the spec: `bulmaSlider.attach()` is library code (not in the
repository); per spec section 6 it attaches a slider widget to every matching
element and returns the instances. -/
def bulmaSliderAttach (page : Page) : List Nat :=
  page.sliderElems

/-- A callback registration made by `carousel.on(eventName, handler)`. -/
structure HandlerReg where
  inst : CarouselInstance
  event : String
  deriving DecidableEq, Repr

/-- Observable side effects of the initializer and its callbacks.  The
constructors cover the effect classes the spec talks about: widget
attachment, handler registration, media play/pause, network calls and
storage writes. -/
inductive Effect where
  | attachCarousel (selector : String)
  | registerHandler (event : String)
  | attachSlider
  | pauseE (v : Nat)
  | playE (v : Nat)
  | network (url : String)
  | storageWrite (key value : String)
  deriving DecidableEq, Repr

/-- Result of running the document-ready initializer. -/
structure InitResult where
  carousels : List CarouselInstance
  regs : List HandlerReg
  sliders : List Nat
  sliderAttached : Bool
  effects : List Effect
  deriving Repr

/-- The document-ready initializer (`index.js` lines 4-41): attach carousels
with the fixed options, register the two callbacks on each instance, attach
the slider, and record the trace of observable side effects performed. -/
def initPage (page : Page) : InitResult :=
  let carousels := bulmaCarouselAttach page options
  let regs := carousels.flatMap (fun c => [⟨c, "before:show"⟩, ⟨c, "shown"⟩])
  ⟨carousels, regs, bulmaSliderAttach page, true,
    Effect.attachCarousel ".carousel" ::
      (regs.map (fun r => Effect.registerHandler r.event) ++
        [Effect.attachSlider])⟩

/-- Effect trace of one invocation of the `before:show` callback: one pause
per video in the carousel's subtree, in document order. -/
def beforeShowEffects (c : CarouselInstance) : List Effect :=
  c.videos.map Effect.pauseE

/-- Effect trace of one invocation of the `shown` callback: one play of the
active slide's first video when both exist, nothing otherwise. -/
def shownEffects (c : CarouselInstance) : List Effect :=
  match c.activeSlide with
  | none => []
  | some slide =>
      match slide.videos.head? with
      | none => []
      | some v => [Effect.playE v]

/-- Meaning of a single effect on the playback state; effects other than
play and pause do not touch playback state. -/
def applyEffect (st : PlaybackState) (e : Effect) : PlaybackState :=
  match e with
  | Effect.pauseE v => pauseVideo v st
  | Effect.playE v => playVideo v st
  | _ => st

/-- Modelled from the spec: jQuery's `$(document).ready` (library code, not in
the repository) fires its registered handlers exactly once, when the page's
structural content has finished loading (spec section 6: "fires once per page
load").  The script registers exactly one handler, the initializer. -/
def readyHandlers : List (Page → InitResult) :=
  [initPage]

/-- One page load: the structural-content-loaded signal fires once and runs
each registered ready handler once. -/
def pageLoadRuns (page : Page) : List InitResult :=
  readyHandlers.map (fun h => h page)

/-! ## Helper lemmas -/

/-- Pointwise evaluation of folding `pauseVideo` over a list of video ids. -/
theorem foldl_pause_eval (l : List Nat) (st : PlaybackState) (v : Nat) :
    l.foldl (fun s w => pauseVideo w s) st v =
      if v ∈ l then false else st v := by
  induction l generalizing st with
  | nil => simp
  | cons a t ih =>
      rw [List.foldl_cons, ih]
      by_cases hv : v ∈ t
      · simp [hv]
      · by_cases hva : v = a
        · simp [hv, hva, pauseVideo]
        · simp [hv, hva, pauseVideo, List.mem_cons]

/-- Pointwise evaluation of the `before:show` callback: a video in the
carousel's subtree ends up paused, any other video keeps its state. -/
theorem beforeShow_eval (c : CarouselInstance) (st : PlaybackState) (v : Nat) :
    beforeShow c st v = if v ∈ c.videos then false else st v :=
  foldl_pause_eval c.videos st v

/-- When the active slide exists and has first video `v`, the `shown`
callback is exactly `playVideo v`. -/
theorem shown_eq_play (c : CarouselInstance) (st : PlaybackState)
    (s : Slide) (v : Nat) (t : List Nat)
    (hs : c.activeSlide = some s) (hv : s.videos = v :: t) :
    shown c st = playVideo v st := by
  unfold shown
  rw [hs]
  simp [hv]

/-- The effect-trace semantics of `before:show` agrees with its state
semantics. -/
theorem beforeShowEffects_sound (c : CarouselInstance) (st : PlaybackState) :
    (beforeShowEffects c).foldl applyEffect st = beforeShow c st := by
  unfold beforeShowEffects beforeShow
  induction c.videos generalizing st with
  | nil => rfl
  | cons a t ih => simp [List.foldl_cons, ih, applyEffect]

/-- The effect-trace semantics of `shown` agrees with its state semantics. -/
theorem shownEffects_sound (c : CarouselInstance) (st : PlaybackState) :
    (shownEffects c).foldl applyEffect st = shown c st := by
  unfold shownEffects shown
  cases hA : c.activeSlide with
  | none => rfl
  | some s =>
      cases hV : s.videos.head? with
      | none => simp [hV]
      | some v => simp [hV, applyEffect]

/-! ## Concrete fixtures for witnesses -/

/-- Concrete active slide holding the single video 5. -/
def slideA : Slide := ⟨true, [5]⟩

/-- Concrete inactive slide holding the single video 7. -/
def slideB : Slide := ⟨false, [7]⟩

/-- Concrete carousel whose active slide holds exactly video 5. -/
def carW : CarouselInstance := ⟨[slideA, slideB], options⟩

/-- Concrete active slide holding two videos, 5 first in document order. -/
def slideTwo : Slide := ⟨true, [5, 7]⟩

/-- Concrete carousel whose active slide holds two videos. -/
def carTwo : CarouselInstance := ⟨[slideTwo], options⟩

/-- Concrete carousel with no slide flagged active. -/
def carNoActive : CarouselInstance := ⟨[slideB], options⟩

/-- Concrete carousel whose active slide holds no video. -/
def carNoVideo : CarouselInstance := ⟨[⟨true, []⟩], options⟩

/-- Concrete carousel whose subtree holds no video at all. -/
def carEmpty : CarouselInstance := ⟨[], options⟩

/-- Playback state in which every video is paused. -/
def allPaused : PlaybackState := fun _ => false

/-- Concrete page with one carousel element and one slider element. -/
def pageW : Page := ⟨[⟨["carousel"], [slideA, slideB]⟩, ⟨["hero"], []⟩], [11]⟩

/-- Concrete page with a slider element but no carousel element. -/
def pageNoCar : Page := ⟨[⟨["hero"], []⟩], [11]⟩

/-! ## Claim theorems -/

/-- C1: after a completed slide transition on a carousel (the `before:show`
callback followed by the `shown` callback), if the newly active slide holds
exactly one video `v` and every video outside this carousel's subtree was
paused beforehand, then `v` is playing and every other video on the page is
paused — at most one video across all carousels plays as a result of the
callbacks. -/
theorem transition_plays_exactly_one (c : CarouselInstance)
    (st : PlaybackState) (s : Slide) (v : Nat)
    (hactive : c.activeSlide = some s)
    (hone : s.videos = [v])
    (hothers : ∀ w, w ∉ c.videos → st w = false) :
    shown c (beforeShow c st) v = true ∧
      ∀ w, w ≠ v → shown c (beforeShow c st) w = false := by
  have hplay : shown c (beforeShow c st) = playVideo v (beforeShow c st) :=
    shown_eq_play c (beforeShow c st) s v [] hactive hone
  constructor
  · rw [hplay]; simp [playVideo]
  · intro w hw
    rw [hplay]
    have h1 : playVideo v (beforeShow c st) w = beforeShow c st w := by
      simp [playVideo, hw]
    rw [h1, beforeShow_eval]
    by_cases hmem : w ∈ c.videos
    · simp [hmem]
    · simp [hmem, hothers w hmem]

/-- Witness for C1: a concrete transition on `carW` from the all-paused
state plays video 5 and leaves every other video paused. -/
theorem transition_plays_exactly_one_witness :
    shown carW (beforeShow carW allPaused) 5 = true ∧
      ∀ w, w ≠ 5 → shown carW (beforeShow carW allPaused) w = false :=
  transition_plays_exactly_one carW allPaused slideA 5 rfl rfl
    (fun _ _ => rfl)

/-- C2: the `before:show` callback pauses every video element in the
carousel's subtree unconditionally, and when the subtree holds no videos it
leaves the playback state unchanged. -/
theorem beforeShow_pauses_subtree (c : CarouselInstance)
    (st : PlaybackState) :
    (∀ v ∈ c.videos, beforeShow c st v = false) ∧
      (c.videos = [] → beforeShow c st = st) := by
  constructor
  · intro v hv
    rw [beforeShow_eval]
    simp [hv]
  · intro h
    unfold beforeShow
    rw [h]
    rfl

/-- Witness for C2: on `carW` the callback pauses its videos, and on a
carousel with no videos it is the identity on the playback state. -/
theorem beforeShow_pauses_subtree_witness :
    (∀ v ∈ carW.videos, beforeShow carW allPaused v = false) ∧
      beforeShow carEmpty allPaused = allPaused :=
  ⟨(beforeShow_pauses_subtree carW allPaused).1,
   (beforeShow_pauses_subtree carEmpty allPaused).2 rfl⟩

/-- C3: the `shown` callback is a no-op when no slide is flagged active, a
no-op when the active slide holds no video element, and plays the active
slide's video when there is one; being a total function, it signals no
error in any of these cases. -/
theorem shown_branches (c : CarouselInstance) (st : PlaybackState) :
    (c.activeSlide = none → shown c st = st) ∧
      (∀ s, c.activeSlide = some s → s.videos = [] → shown c st = st) ∧
      (∀ s v t, c.activeSlide = some s → s.videos = v :: t →
        shown c st v = true) := by
  refine ⟨?_, ?_, ?_⟩
  · intro h
    unfold shown
    rw [h]
  · intro s hs hnil
    unfold shown
    rw [hs]
    simp [hnil]
  · intro s v t hs hv
    rw [shown_eq_play c st s v t hs hv]
    simp [playVideo]

/-- Witness for C3: no active slide is a no-op, an active slide without a
video is a no-op, and an active slide with a video gets it played. -/
theorem shown_branches_witness :
    shown carNoActive allPaused = allPaused ∧
      shown carNoVideo allPaused = allPaused ∧
      shown carTwo allPaused 5 = true :=
  ⟨(shown_branches carNoActive allPaused).1 rfl,
   (shown_branches carNoVideo allPaused).2.1 ⟨true, []⟩ rfl rfl,
   (shown_branches carTwo allPaused).2.2 slideTwo 5 [7] rfl rfl⟩

/-- Every effect in a `shown` callback trace is a play effect. -/
theorem shownEffects_only_play (c : CarouselInstance) :
    ∀ e ∈ shownEffects c, ∃ v, e = Effect.playE v := by
  intro e he
  unfold shownEffects at he
  rcases hA : c.activeSlide with _ | s
  · rw [hA] at he
    simp at he
  · rw [hA] at he
    rcases hV : s.videos.head? with _ | v
    · simp [hV] at he
    · simp [hV] at he
      exact ⟨v, he⟩

/-- C4: the initializer's effect trace holds only the carousel attachment,
handler registrations and the slider attachment, and each callback's effect
trace holds only media pause/play effects — in particular no network call
and no storage write occurs anywhere. -/
theorem initPage_effects_scope (page : Page) :
    (∀ e ∈ (initPage page).effects,
        e = Effect.attachCarousel ".carousel" ∨
          (∃ ev, e = Effect.registerHandler ev) ∨
          e = Effect.attachSlider) ∧
      (∀ c : CarouselInstance, ∀ e ∈ beforeShowEffects c ++ shownEffects c,
        (∃ v, e = Effect.pauseE v) ∨ (∃ v, e = Effect.playE v)) := by
  constructor
  · intro e he
    simp only [initPage, List.mem_cons, List.mem_append, List.mem_map,
      List.mem_singleton] at he
    rcases he with h | ⟨r, _, rfl⟩ | h | h
    · left; exact h
    · right; left; exact ⟨r.event, rfl⟩
    · right; right; exact h
    · simp at h
  · intro c e he
    rw [List.mem_append] at he
    rcases he with h | h
    · left
      unfold beforeShowEffects at h
      rcases List.mem_map.mp h with ⟨v, _, rfl⟩
      exact ⟨v, rfl⟩
    · right
      exact shownEffects_only_play c e h

/-- Witness for C4: on a concrete page the initializer's first effect is the
carousel attachment, and a concrete `before:show` trace effect is a pause. -/
theorem initPage_effects_scope_witness :
    (Effect.attachCarousel ".carousel" = Effect.attachCarousel ".carousel" ∨
        (∃ ev, Effect.attachCarousel ".carousel" =
          Effect.registerHandler ev) ∨
        Effect.attachCarousel ".carousel" = Effect.attachSlider) ∧
      ((∃ v, Effect.pauseE 5 = Effect.pauseE v) ∨
        (∃ v, Effect.pauseE 5 = Effect.playE v)) :=
  ⟨(initPage_effects_scope pageW).1 (Effect.attachCarousel ".carousel")
      (by simp [initPage]),
   (initPage_effects_scope pageW).2 carW (Effect.pauseE 5) (by decide)⟩

/-- C5: the carousel is attached with exactly the fixed, non-parameterized
configuration the spec states, and every attached instance carries exactly
those options. -/
theorem options_fixed_configuration :
    options = specCarouselOptions ∧
      ∀ (page : Page) (inst : CarouselInstance),
        inst ∈ bulmaCarouselAttach page options → inst.opts = options := by
  refine ⟨rfl, ?_⟩
  intro page inst hmem
  unfold bulmaCarouselAttach at hmem
  rcases List.mem_map.mp hmem with ⟨e, _, rfl⟩
  rfl

/-- Witness for C5: the instance attached to the concrete page carries the
fixed options. -/
theorem options_fixed_configuration_witness :
    options = specCarouselOptions ∧ carW.opts = options :=
  ⟨options_fixed_configuration.1,
   options_fixed_configuration.2 pageW carW (by decide)⟩

/-- C6: on a page with zero elements matching the carousel selector, the
attach call yields the empty instance collection and the registration loop
makes no registrations. -/
theorem attach_zero_matches (page : Page)
    (h : ∀ e ∈ page.elems, matchesCarousel e = false) :
    bulmaCarouselAttach page options = [] ∧
      (initPage page).carousels = [] ∧ (initPage page).regs = [] := by
  have hfilter : page.elems.filter matchesCarousel = [] := by
    rw [List.filter_eq_nil_iff]
    intro a ha
    simp [h a ha]
  have hattach : bulmaCarouselAttach page options = [] := by
    unfold bulmaCarouselAttach
    rw [hfilter]
    rfl
  refine ⟨hattach, ?_, ?_⟩
  · simp [initPage, hattach]
  · simp [initPage, hattach]

/-- Witness for C6: on the concrete page with no carousel element the
attach result and the registration list are empty. -/
theorem attach_zero_matches_witness :
    bulmaCarouselAttach pageNoCar options = [] ∧
      (initPage pageNoCar).carousels = [] ∧
      (initPage pageNoCar).regs = [] :=
  attach_zero_matches pageNoCar (by decide)

/-- C7: slider attachment is independent of carousel attachment — on a page
with slider-marked elements and zero carousel elements the initializer still
reaches the slider attach call, attaches every slider element, and the
slider-attach effect is in its trace. -/
theorem slider_independent_of_carousel (page : Page)
    (_hs : page.sliderElems ≠ [])
    (_hc : ∀ e ∈ page.elems, matchesCarousel e = false) :
    (initPage page).sliderAttached = true ∧
      (initPage page).sliders = page.sliderElems ∧
      Effect.attachSlider ∈ (initPage page).effects := by
  refine ⟨rfl, rfl, ?_⟩
  simp [initPage]

/-- Witness for C7: the concrete page with a slider element and no carousel
element still gets its slider attached. -/
theorem slider_independent_of_carousel_witness :
    (initPage pageNoCar).sliderAttached = true ∧
      (initPage pageNoCar).sliders = pageNoCar.sliderElems ∧
      Effect.attachSlider ∈ (initPage pageNoCar).effects :=
  slider_independent_of_carousel pageNoCar (by decide) (by decide)

/-- C8: one page load runs the initializer exactly once — the list of runs
is exactly the single initializer run — and the only code-owned logic left
registered to execute afterwards is the two slide-transition callbacks per
carousel instance. -/
theorem initPage_runs_once (page : Page) :
    pageLoadRuns page = [initPage page] ∧
      (pageLoadRuns page).length = 1 ∧
      ∀ r ∈ (initPage page).regs,
        r.event = "before:show" ∨ r.event = "shown" := by
  refine ⟨rfl, rfl, ?_⟩
  intro r hr
  simp only [initPage] at hr
  rcases List.mem_flatMap.mp hr with ⟨c, -, hmem⟩
  simp only [List.mem_cons, List.not_mem_nil, or_false] at hmem
  rcases hmem with rfl | rfl
  · left; rfl
  · right; rfl

/-- Witness for C8: on the concrete page the run list is the single
initializer run and a concrete registration carries a callback event name. -/
theorem initPage_runs_once_witness :
    pageLoadRuns pageW = [initPage pageW] ∧
      (pageLoadRuns pageW).length = 1 ∧
      ((⟨carW, "before:show"⟩ : HandlerReg).event = "before:show" ∨
        (⟨carW, "before:show"⟩ : HandlerReg).event = "shown") :=
  ⟨(initPage_runs_once pageW).1, (initPage_runs_once pageW).2.1,
   (initPage_runs_once pageW).2.2 ⟨carW, "before:show"⟩ (by decide)⟩

/-- C9: when the active slide holds more than one video, the `shown`
callback plays only the first video in document order; every later video of
that slide is left untouched. -/
theorem shown_plays_only_first (c : CarouselInstance) (st : PlaybackState)
    (s : Slide) (v : Nat) (t : List Nat)
    (hs : c.activeSlide = some s) (hv : s.videos = v :: t) :
    shown c st v = true ∧ ∀ w ∈ t, w ≠ v → shown c st w = st w := by
  rw [shown_eq_play c st s v t hs hv]
  constructor
  · simp [playVideo]
  · intro w _ hw
    simp [playVideo, hw]

/-- Witness for C9: on the concrete two-video slide, the callback plays
video 5 and leaves video 7 untouched. -/
theorem shown_plays_only_first_witness :
    shown carTwo allPaused 5 = true ∧
      ∀ w ∈ [7], w ≠ 5 → shown carTwo allPaused w = allPaused w :=
  shown_plays_only_first carTwo allPaused slideTwo 5 [7] rfl rfl

/-- C10: the `before:show` callback of a carousel mutates only videos inside
that carousel's own element subtree — every video outside it, in particular
every video of any other carousel instance with a disjoint subtree, keeps
its playback state. -/
theorem beforeShow_frame (c : CarouselInstance) (st : PlaybackState) :
    (∀ w, w ∉ c.videos → beforeShow c st w = st w) ∧
      ∀ c' : CarouselInstance, (∀ w ∈ c'.videos, w ∉ c.videos) →
        ∀ w ∈ c'.videos, beforeShow c st w = st w := by
  have hpt : ∀ w, w ∉ c.videos → beforeShow c st w = st w := by
    intro w hw
    rw [beforeShow_eval]
    simp [hw]
  exact ⟨hpt, fun c' hd w hw => hpt w (hd w hw)⟩

/-- Witness for C10: pausing `carW`'s subtree leaves video 9, which lies
outside it, untouched. -/
theorem beforeShow_frame_witness :
    beforeShow carW allPaused 9 = allPaused 9 :=
  (beforeShow_frame carW allPaused).1 9 (by decide)
